import Mathlib

/-!
Verification development for the ChatGPT-Next-Web-Session-Exporter repository.

The Go packages `repairdata` and `exporter` are shallowly embedded here:

* JSON documents are modelled by the inductive type `Json` (Go's `encoding/json`
  value space).  JSON numbers are modelled as integers (`Int`); no property in
  this development depends on non-integral numeric values.  Malformed input
  bytes are modelled as the absence of a `Json` tree (`Option Json`), since the
  byte-level lexer lives in Go's standard library, not in this repository.
* Go's `encoding/json` unmarshalling of the repository's struct types is
  embedded one struct field at a time (`decodeStringField`, ... ):  an absent
  key or a JSON `null` leaves the field at its zero value, a mismatched type is
  a decode error (`none`), unknown object keys are ignored.
* Marshalling (`json.Marshal` / `json.MarshalIndent`) is embedded by `encode*`
  functions producing `Json` trees plus the renderers `Json.render`
  (compact) and `Json.marshalIndent` (two-space indentation), mirroring Go's
  output byte for byte, including its HTML escaping of `<`, `>` and `&`.
-/

/-- JSON value trees, the value space of Go's `encoding/json`.
Object fields are an ordered association list, as produced by the Go marshaller
(struct fields in declaration order).  Numbers are modelled as integers. -/
inductive Json where
  | null
  | bool (b : Bool)
  | num (n : Int)
  | str (s : String)
  | arr (elems : List Json)
  | obj (fields : List (String × Json))
deriving Repr

/-- First binding of a key in a JSON object's field list.  Go's unmarshaller
processes keys in input order (for the duplicate-free objects this development
works with, first and last binding coincide). -/
def lookupField : List (String × Json) → String → Option Json
  | [], _ => none
  | (k, v) :: rest, key => if k = key then some v else lookupField rest key

/-- Object member access, used to state properties of concrete documents. -/
def Json.get? : Json → String → Option Json
  | .obj fs, key => lookupField fs key
  | _, _ => none

/-- Array element access, used to state properties of concrete documents. -/
def Json.idx? : Json → Nat → Option Json
  | .arr xs, i => xs[i]?
  | _, _ => none

/-- Lower-case hexadecimal digit, as used by Go's JSON `\u00xx` escapes. -/
def hexDigit (n : Nat) : Char :=
  if n < 10 then Char.ofNat (48 + n) else Char.ofNat (87 + n)

/-- Escaping of one character inside a JSON string literal, exactly as Go's
`encoding/json` encoder does it (HTML escaping on, the default). -/
def escapeChar (c : Char) : String :=
  if c = '"' then "\\\""
  else if c = '\\' then "\\\\"
  else if c = '\n' then "\\n"
  else if c = '\r' then "\\r"
  else if c = '\t' then "\\t"
  else if c = '<' then "\\u003c"
  else if c = '>' then "\\u003e"
  else if c = '&' then "\\u0026"
  else if c.toNat < 32 then
    "\\u00" ++ String.singleton (hexDigit (c.toNat / 16)) ++
      String.singleton (hexDigit (c.toNat % 16))
  else if c.toNat = 8232 then "\\u2028"
  else if c.toNat = 8233 then "\\u2029"
  else String.singleton c

/-- Go JSON escaping of a whole string. -/
def escapeString (s : String) : String :=
  String.join (s.data.map escapeChar)

mutual

/-- Compact rendering of a JSON tree: the bytes `json.Marshal` produces. -/
def Json.render : Json → String
  | .null => "null"
  | .bool true => "true"
  | .bool false => "false"
  | .num n => toString n
  | .str s => "\"" ++ escapeString s ++ "\""
  | .arr xs => "[" ++ String.intercalate "," (Json.renderList xs) ++ "]"
  | .obj fs => "\x7b" ++ String.intercalate "," (Json.renderFields fs) ++ "\x7d"

def Json.renderList : List Json → List String
  | [] => []
  | j :: rest => Json.render j :: Json.renderList rest

def Json.renderFields : List (String × Json) → List String
  | [] => []
  | (k, v) :: rest =>
    ("\"" ++ escapeString k ++ "\":" ++ Json.render v) :: Json.renderFields rest

end

/-- Two-space padding at a given nesting depth, for `json.MarshalIndent`. -/
def indentPad : Nat → String
  | 0 => ""
  | n + 1 => indentPad n ++ "  "

mutual

/-- Indented rendering of a JSON tree at a given depth: the bytes
`json.MarshalIndent(v, "", "  ")` produces.  Empty arrays and objects stay on
one line, exactly as in Go's `json.Indent`. -/
def Json.renderIndent (d : Nat) : Json → String
  | .arr [] => "[]"
  | .obj [] => "\x7b\x7d"
  | .arr xs =>
    "[\n" ++ String.intercalate ",\n" (Json.renderIndentList (d + 1) xs) ++
      "\n" ++ indentPad d ++ "]"
  | .obj fs =>
    "\x7b\n" ++ String.intercalate ",\n" (Json.renderIndentFields (d + 1) fs) ++
      "\n" ++ indentPad d ++ "\x7d"
  | j => Json.render j

def Json.renderIndentList (d : Nat) : List Json → List String
  | [] => []
  | j :: rest => (indentPad d ++ Json.renderIndent d j) :: Json.renderIndentList d rest

def Json.renderIndentFields (d : Nat) : List (String × Json) → List String
  | [] => []
  | (k, v) :: rest =>
    (indentPad d ++ "\"" ++ escapeString k ++ "\": " ++ Json.renderIndent d v) ::
      Json.renderIndentFields d rest

end

/-- The bytes `json.MarshalIndent(v, "", "  ")` produces for a tree. -/
def Json.marshalIndent (j : Json) : String :=
  Json.renderIndent 0 j

/-! ### Go `encoding/json` field unmarshalling primitives

Each helper receives the result of looking the field's key up in the input
object (`none` = key absent) and returns the decoded field value, or `none`
for Go's `UnmarshalTypeError`.  An absent key or a JSON `null` leaves the
field at its zero value. -/

/-- Unmarshalling of a `string` struct field. -/
def decodeStringField : Option Json → Option String
  | none => some ""
  | some (.str s) => some s
  | some .null => some ""
  | some _ => none

/-- Unmarshalling of an `int` / `int64` struct field. -/
def decodeIntField : Option Json → Option Int
  | none => some 0
  | some (.num n) => some n
  | some .null => some 0
  | some _ => none

/-- Unmarshalling of a `bool` struct field. -/
def decodeBoolField : Option Json → Option Bool
  | none => some false
  | some (.bool b) => some b
  | some .null => some false
  | some _ => none

/-- Unmarshalling of a `StringOrInt` struct field, following the custom
`UnmarshalJSON` of both repository packages: try a string first, then an
integer formatted in base 10; any other JSON value is an error
(`null` is a no-op, leaving the zero value, before the custom code runs). -/
def decodeStringOrIntField : Option Json → Option String
  | none => some ""
  | some (.str s) => some s
  | some (.num n) => some (toString n)
  | some .null => some ""
  | some _ => none

namespace RepairData

/-! Embedding of the `repairdata` Go package (`repairdata/repairdata.go`). -/

/-- `repairdata.Message`: id, date, role, content. -/
structure Message where
  ID : String
  Date : String
  Role : String
  Content : String
deriving Repr, DecidableEq

/-- `repairdata.Stat`: token/word/char counters. -/
structure Stat where
  TokenCount : Int
  WordCount : Int
  CharCount : Int
deriving Repr, DecidableEq

/-- `repairdata.SystemPrompt`: the optional `systemprompt` object. -/
structure SystemPrompt where
  Default : String
deriving Repr, DecidableEq

/-- `repairdata.ModelConfig`, all seventeen fields in declaration order.
`float64` fields are carried as integers under this development's integral
JSON-number model; the repair pass never computes with them. -/
structure ModelConfig where
  Model : String
  Temperature : Int
  TopP : Int
  MaxTokens : Int
  PresencePenalty : Int
  FrequencyPenalty : Int
  N : Int
  Quality : String
  Size : String
  Style : String
  SystemFingerprint : String
  SendMemory : Bool
  HistoryMessageCount : Int
  CompressMessageLengthThreshold : Int
  EnableInjectSystemPrompts : Bool
  Template : String
  SystemPrompt : Option SystemPrompt
deriving Repr, DecidableEq

/-- `repairdata.Mask`.  The `*ModelConfig` pointer is an `Option`; the
`Context` slice distinguishes `nil` (`none`) from an empty slice. -/
structure Mask where
  ID : String
  Avatar : String
  Name : String
  Context : Option (List Message)
  SyncGlobalConfig : Bool
  ModelConfig : Option ModelConfig
  Lang : String
  Builtin : Bool
  CreatedAt : Int
deriving Repr, DecidableEq

/-- `repairdata.Session`.  `Mask` is a nullable pointer, `Messages` a slice
whose `nil`/empty distinction matters for re-marshalling. -/
structure Session where
  ID : String
  Topic : String
  MemoryPrompt : String
  Messages : Option (List Message)
  Stat : Stat
  LastUpdate : Int
  LastSummarizeIndex : Int
  Mask : Option Mask
deriving Repr, DecidableEq

/-- The anonymous struct stored under `chat-next-web-store` in
`repairdata.OldData` and `repairdata.NewData`. -/
structure ChatStore where
  Sessions : Option (List Session)
  CurrentSessionIndex : Int
  LastUpdateTime : Int
deriving Repr, DecidableEq

/-- `repairdata.OldData`: the decode target of the repair pass. -/
structure OldData where
  ChatNextWebStore : ChatStore
deriving Repr, DecidableEq

/-- `repairdata.NewData`: the marshal source of the repair pass (structurally
identical to `OldData`; the Go code copies the inner struct across). -/
structure NewData where
  ChatNextWebStore : ChatStore
deriving Repr, DecidableEq

/-- Unmarshalling of a `repairdata.Message` value (an element of a slice):
an object with the four string fields; `null` leaves the zero value. -/
def decodeMessage : Json → Option Message
  | .obj fs =>
    match decodeStringField (lookupField fs "id"),
        decodeStringField (lookupField fs "date"),
        decodeStringField (lookupField fs "role"),
        decodeStringField (lookupField fs "content") with
    | some id, some date, some role, some content => some ⟨id, date, role, content⟩
    | _, _, _, _ => none
  | .null => some ⟨"", "", "", ""⟩
  | _ => none

/-- Unmarshalling of every element of a JSON array into messages. -/
def decodeMessageList : List Json → Option (List Message)
  | [] => some []
  | j :: rest =>
    match decodeMessage j, decodeMessageList rest with
    | some m, some ms => some (m :: ms)
    | _, _ => none

/-- Unmarshalling of a `[]Message` struct field: absent or `null` is the `nil`
slice, an array decodes elementwise, anything else is a type error. -/
def decodeMessagesField : Option Json → Option (Option (List Message))
  | none => some none
  | some .null => some none
  | some (.arr xs) => (decodeMessageList xs).map some
  | some _ => none

/-- Unmarshalling of a `Stat` struct field (a non-pointer struct: absent or
`null` keeps the zero value). -/
def decodeStatField : Option Json → Option Stat
  | none => some ⟨0, 0, 0⟩
  | some .null => some ⟨0, 0, 0⟩
  | some (.obj fs) =>
    match decodeIntField (lookupField fs "tokenCount"),
        decodeIntField (lookupField fs "wordCount"),
        decodeIntField (lookupField fs "charCount") with
    | some t, some w, some c => some ⟨t, w, c⟩
    | _, _, _ => none
  | some _ => none

/-- Unmarshalling of the `*SystemPrompt` pointer field. -/
def decodeSystemPromptField : Option Json → Option (Option SystemPrompt)
  | none => some none
  | some .null => some none
  | some (.obj fs) =>
    match decodeStringField (lookupField fs "default") with
    | some d => some (some ⟨d⟩)
    | none => none
  | some _ => none

/-- Unmarshalling of the `*ModelConfig` pointer field. -/
def decodeModelConfigField : Option Json → Option (Option ModelConfig)
  | none => some none
  | some .null => some none
  | some (.obj fs) =>
    match decodeStringField (lookupField fs "model"),
        decodeIntField (lookupField fs "temperature"),
        decodeIntField (lookupField fs "top_p"),
        decodeIntField (lookupField fs "max_tokens"),
        decodeIntField (lookupField fs "presence_penalty"),
        decodeIntField (lookupField fs "frequency_penalty"),
        decodeIntField (lookupField fs "n"),
        decodeStringField (lookupField fs "quality"),
        decodeStringField (lookupField fs "size"),
        decodeStringField (lookupField fs "style"),
        decodeStringField (lookupField fs "system_fingerprint"),
        decodeBoolField (lookupField fs "sendMemory"),
        decodeIntField (lookupField fs "historyMessageCount"),
        decodeIntField (lookupField fs "compressMessageLengthThreshold"),
        decodeBoolField (lookupField fs "enableInjectSystemPrompts"),
        decodeStringField (lookupField fs "template"),
        decodeSystemPromptField (lookupField fs "systemprompt") with
    | some model, some temperature, some topP, some maxTokens,
      some presencePenalty, some frequencyPenalty, some n, some quality,
      some size, some style, some fingerprint, some sendMemory,
      some historyMessageCount, some compressThreshold, some enableInject,
      some template, some systemPrompt =>
      some (some ⟨model, temperature, topP, maxTokens, presencePenalty,
        frequencyPenalty, n, quality, size, style, fingerprint, sendMemory,
        historyMessageCount, compressThreshold, enableInject, template,
        systemPrompt⟩)
    | _, _, _, _, _, _, _, _, _, _, _, _, _, _, _, _, _ => none
  | some _ => none

/-- Unmarshalling of the `*Mask` pointer field. -/
def decodeMaskField : Option Json → Option (Option Mask)
  | none => some none
  | some .null => some none
  | some (.obj fs) =>
    match decodeStringOrIntField (lookupField fs "id"),
        decodeStringField (lookupField fs "avatar"),
        decodeStringField (lookupField fs "name"),
        decodeMessagesField (lookupField fs "context"),
        decodeBoolField (lookupField fs "syncGlobalConfig"),
        decodeModelConfigField (lookupField fs "modelConfig"),
        decodeStringField (lookupField fs "lang"),
        decodeBoolField (lookupField fs "builtin"),
        decodeIntField (lookupField fs "createdAt") with
    | some id, some avatar, some name, some context, some sync,
      some modelConfig, some lang, some builtin, some createdAt =>
      some (some ⟨id, avatar, name, context, sync, modelConfig, lang, builtin, createdAt⟩)
    | _, _, _, _, _, _, _, _, _ => none
  | some _ => none

/-- Unmarshalling of a `repairdata.Session` value (an element of a slice). -/
def decodeSession : Json → Option Session
  | .obj fs =>
    match decodeStringField (lookupField fs "id"),
        decodeStringField (lookupField fs "topic"),
        decodeStringField (lookupField fs "memoryPrompt"),
        decodeMessagesField (lookupField fs "messages"),
        decodeStatField (lookupField fs "stat"),
        decodeIntField (lookupField fs "lastUpdate"),
        decodeIntField (lookupField fs "lastSummarizeIndex"),
        decodeMaskField (lookupField fs "mask") with
    | some id, some topic, some memoryPrompt, some messages, some stat,
      some lastUpdate, some lastSummarizeIndex, some mask =>
      some ⟨id, topic, memoryPrompt, messages, stat, lastUpdate, lastSummarizeIndex, mask⟩
    | _, _, _, _, _, _, _, _ => none
  | .null => some ⟨"", "", "", none, ⟨0, 0, 0⟩, 0, 0, none⟩
  | _ => none

/-- Unmarshalling of every element of a JSON array into sessions. -/
def decodeSessionList : List Json → Option (List Session)
  | [] => some []
  | j :: rest =>
    match decodeSession j, decodeSessionList rest with
    | some s, some ss => some (s :: ss)
    | _, _ => none

/-- Unmarshalling of the `[]Session` struct field. -/
def decodeSessionsField : Option Json → Option (Option (List Session))
  | none => some none
  | some .null => some none
  | some (.arr xs) => (decodeSessionList xs).map some
  | some _ => none

/-- Unmarshalling of the anonymous `chat-next-web-store` struct field. -/
def decodeChatStoreField : Option Json → Option ChatStore
  | none => some ⟨none, 0, 0⟩
  | some .null => some ⟨none, 0, 0⟩
  | some (.obj fs) =>
    match decodeSessionsField (lookupField fs "sessions"),
        decodeIntField (lookupField fs "currentSessionIndex"),
        decodeIntField (lookupField fs "lastUpdateTime") with
    | some sessions, some currentSessionIndex, some lastUpdateTime =>
      some ⟨sessions, currentSessionIndex, lastUpdateTime⟩
    | _, _, _ => none
  | some _ => none

/-- `json.Unmarshal(oldDataBytes, &oldData)` on an already lexed document:
unknown top-level keys are ignored, `null` leaves the zero value, and only the
fields of `OldData` are retained — the strict-struct decode of the repair
pass. -/
def decodeOldData : Json → Option OldData
  | .obj fs => (decodeChatStoreField (lookupField fs "chat-next-web-store")).map OldData.mk
  | .null => some ⟨⟨none, 0, 0⟩⟩
  | _ => none

/-- Marshalling of a `repairdata.Message`. -/
def encodeMessage (m : Message) : Json :=
  .obj [("id", .str m.ID), ("date", .str m.Date), ("role", .str m.Role),
    ("content", .str m.Content)]

/-- Marshalling of a `[]Message` value: the `nil` slice marshals to `null`. -/
def encodeMessagesVal : Option (List Message) → Json
  | none => .null
  | some xs => .arr (xs.map encodeMessage)

/-- Marshalling of a `repairdata.Stat`. -/
def encodeStat (st : Stat) : Json :=
  .obj [("tokenCount", .num st.TokenCount), ("wordCount", .num st.WordCount),
    ("charCount", .num st.CharCount)]

/-- Marshalling of a `repairdata.SystemPrompt`. -/
def encodeSystemPrompt (sp : SystemPrompt) : Json :=
  .obj [("default", .str sp.Default)]

/-- Marshalling of a `repairdata.ModelConfig`: all fields in declaration
order; `systemprompt` carries `omitempty`, so a `nil` pointer is omitted. -/
def encodeModelConfig (c : ModelConfig) : Json :=
  .obj ([("model", .str c.Model), ("temperature", .num c.Temperature),
    ("top_p", .num c.TopP), ("max_tokens", .num c.MaxTokens),
    ("presence_penalty", .num c.PresencePenalty),
    ("frequency_penalty", .num c.FrequencyPenalty), ("n", .num c.N),
    ("quality", .str c.Quality), ("size", .str c.Size), ("style", .str c.Style),
    ("system_fingerprint", .str c.SystemFingerprint),
    ("sendMemory", .bool c.SendMemory),
    ("historyMessageCount", .num c.HistoryMessageCount),
    ("compressMessageLengthThreshold", .num c.CompressMessageLengthThreshold),
    ("enableInjectSystemPrompts", .bool c.EnableInjectSystemPrompts),
    ("template", .str c.Template)] ++
    (match c.SystemPrompt with
     | none => []
     | some sp => [("systemprompt", encodeSystemPrompt sp)]))

/-- Marshalling of a `*ModelConfig` pointer: `nil` marshals to `null`. -/
def encodeModelConfigVal : Option ModelConfig → Json
  | none => .null
  | some c => encodeModelConfig c

/-- Marshalling of a `*Mask` pointer: `nil` marshals to `null`.
`StringOrInt` is a string type, so `id` marshals as a JSON string. -/
def encodeMaskVal : Option Mask → Json
  | none => .null
  | some m =>
    .obj [("id", .str m.ID), ("avatar", .str m.Avatar), ("name", .str m.Name),
      ("context", encodeMessagesVal m.Context),
      ("syncGlobalConfig", .bool m.SyncGlobalConfig),
      ("modelConfig", encodeModelConfigVal m.ModelConfig),
      ("lang", .str m.Lang), ("builtin", .bool m.Builtin),
      ("createdAt", .num m.CreatedAt)]

/-- Marshalling of a `repairdata.Session`. -/
def encodeSession (s : Session) : Json :=
  .obj [("id", .str s.ID), ("topic", .str s.Topic),
    ("memoryPrompt", .str s.MemoryPrompt),
    ("messages", encodeMessagesVal s.Messages), ("stat", encodeStat s.Stat),
    ("lastUpdate", .num s.LastUpdate),
    ("lastSummarizeIndex", .num s.LastSummarizeIndex),
    ("mask", encodeMaskVal s.Mask)]

/-- Marshalling of a `[]Session` value: the `nil` slice marshals to `null`. -/
def encodeSessionsVal : Option (List Session) → Json
  | none => .null
  | some xs => .arr (xs.map encodeSession)

/-- Marshalling of the anonymous `chat-next-web-store` struct. -/
def encodeChatStore (st : ChatStore) : Json :=
  .obj [("sessions", encodeSessionsVal st.Sessions),
    ("currentSessionIndex", .num st.CurrentSessionIndex),
    ("lastUpdateTime", .num st.LastUpdateTime)]

/-- Marshalling of a `repairdata.NewData`. -/
def encodeNewData (d : NewData) : Json :=
  .obj [("chat-next-web-store", encodeChatStore d.ChatNextWebStore)]

/-- The constant default system prompt inserted by the repair pass
(`repairdata.go:152`), with its placeholder tokens left unexpanded. -/
def defaultSystemPrompt : String :=
  "\nYou are ChatGPT, a large language model trained by OpenAI.\nKnowledge cutoff: \x7b\x7bcutoff\x7d\x7d\nCurrent model: \x7b\x7bmodel\x7d\x7d\nCurrent time: \x7b\x7btime\x7d\x7d\nLatex inline: $x^2$ \nLatex block: $$e=mc^2$$\n"

/-- The body of the repair loop for one session: if `mask` and
`mask.modelConfig` are present and `modelConfig.systemPrompt` is `nil`, set it
to the default; otherwise leave the session as it is. -/
def patchSession (s : Session) : Session :=
  match s.Mask with
  | none => s
  | some m =>
    match m.ModelConfig with
    | none => s
    | some c =>
      match c.SystemPrompt with
      | some _ => s
      | none =>
        let patched : ModelConfig := { c with SystemPrompt := some ⟨defaultSystemPrompt⟩ }
        let newMask : Mask := { m with ModelConfig := some patched }
        { s with Mask := some newMask }

/-- The repair loop over the (possibly `nil`) session slice. -/
def patchSessions : Option (List Session) → Option (List Session)
  | none => none
  | some xs => some (xs.map patchSession)

/-- The repair transform on the inner store. -/
def patchChatStore (st : ChatStore) : ChatStore :=
  { st with Sessions := patchSessions st.Sessions }

/-- `repairdata.RepairSessionData` on an already lexed document: unmarshal
into `OldData`, copy into `NewData`, add the missing `systemprompt` fields,
and re-marshal.  `none` is the error return. -/
def RepairSessionData (j : Json) : Option Json :=
  match decodeOldData j with
  | none => none
  | some old => some (encodeNewData ⟨patchChatStore old.ChatNextWebStore⟩)

end RepairData

namespace Exporter

/-! Embedding of the `exporter` Go package, in its latest revision: the
context-aware `ConvertSessionsToCSV` that delegates to `getCSVHeaders`,
`getWriteFunction`, `writeInlineFormat`, `writePerLineFormat` and
`writeJSONFormat`, plus `ReadJSONFromFile`. -/

/-- `exporter.Message`: id, date, role, content. -/
structure Message where
  ID : String
  Date : String
  Role : String
  Content : String
deriving Repr, DecidableEq

/-- `exporter.Stat`: token/word/char counters. -/
structure Stat where
  TokenCount : Int
  WordCount : Int
  CharCount : Int
deriving Repr, DecidableEq

/-- `exporter.Mask` (five fields; the exporter models less of the mask than
the repair pass does).  `ID` is a `StringOrInt`, normalised to a string. -/
structure Mask where
  ID : String
  Avatar : String
  Name : String
  Lang : String
  CreatedAt : Int
deriving Repr, DecidableEq

/-- `exporter.Session`.  `Mask` is a plain (non-pointer) struct; `Messages`
is a slice whose `nil` (`none`) / empty distinction matters when the JSON
format re-marshals it. -/
structure Session where
  ID : String
  Topic : String
  MemoryPrompt : String
  Stat : Stat
  LastUpdate : Int
  LastSummarizeIndex : Int
  Mask : Mask
  Messages : Option (List Message)
deriving Repr, DecidableEq

/-- `exporter.Store`: the session slice, `nil` when the key was absent. -/
structure Store where
  Sessions : Option (List Session)
deriving Repr, DecidableEq

/-- `exporter.ChatNextWebStore`: the fixed single-key envelope. -/
structure ChatNextWebStore where
  ChatNextWebStore : Store
deriving Repr, DecidableEq

/-- Unmarshalling of an `exporter.Message` value. -/
def decodeMessage : Json → Option Message
  | .obj fs =>
    match decodeStringField (lookupField fs "id"),
        decodeStringField (lookupField fs "date"),
        decodeStringField (lookupField fs "role"),
        decodeStringField (lookupField fs "content") with
    | some id, some date, some role, some content => some ⟨id, date, role, content⟩
    | _, _, _, _ => none
  | .null => some ⟨"", "", "", ""⟩
  | _ => none

/-- Unmarshalling of every element of a JSON array into messages. -/
def decodeMessageList : List Json → Option (List Message)
  | [] => some []
  | j :: rest =>
    match decodeMessage j, decodeMessageList rest with
    | some m, some ms => some (m :: ms)
    | _, _ => none

/-- Unmarshalling of the `[]Message` struct field. -/
def decodeMessagesField : Option Json → Option (Option (List Message))
  | none => some none
  | some .null => some none
  | some (.arr xs) => (decodeMessageList xs).map some
  | some _ => none

/-- Unmarshalling of an `exporter.Stat` struct field. -/
def decodeStatField : Option Json → Option Stat
  | none => some ⟨0, 0, 0⟩
  | some .null => some ⟨0, 0, 0⟩
  | some (.obj fs) =>
    match decodeIntField (lookupField fs "tokenCount"),
        decodeIntField (lookupField fs "wordCount"),
        decodeIntField (lookupField fs "charCount") with
    | some t, some w, some c => some ⟨t, w, c⟩
    | _, _, _ => none
  | some _ => none

/-- Unmarshalling of an `exporter.Mask` struct field (non-pointer struct:
absent or `null` keeps the zero value). -/
def decodeMaskField : Option Json → Option Mask
  | none => some ⟨"", "", "", "", 0⟩
  | some .null => some ⟨"", "", "", "", 0⟩
  | some (.obj fs) =>
    match decodeStringOrIntField (lookupField fs "id"),
        decodeStringField (lookupField fs "avatar"),
        decodeStringField (lookupField fs "name"),
        decodeStringField (lookupField fs "lang"),
        decodeIntField (lookupField fs "createdAt") with
    | some id, some avatar, some name, some lang, some createdAt =>
      some ⟨id, avatar, name, lang, createdAt⟩
    | _, _, _, _, _ => none
  | some _ => none

/-- Unmarshalling of an `exporter.Session` value. -/
def decodeSession : Json → Option Session
  | .obj fs =>
    match decodeStringField (lookupField fs "id"),
        decodeStringField (lookupField fs "topic"),
        decodeStringField (lookupField fs "memoryPrompt"),
        decodeStatField (lookupField fs "stat"),
        decodeIntField (lookupField fs "lastUpdate"),
        decodeIntField (lookupField fs "lastSummarizeIndex"),
        decodeMaskField (lookupField fs "mask"),
        decodeMessagesField (lookupField fs "messages") with
    | some id, some topic, some memoryPrompt, some stat, some lastUpdate,
      some lastSummarizeIndex, some mask, some messages =>
      some ⟨id, topic, memoryPrompt, stat, lastUpdate, lastSummarizeIndex, mask, messages⟩
    | _, _, _, _, _, _, _, _ => none
  | .null => some ⟨"", "", "", ⟨0, 0, 0⟩, 0, 0, ⟨"", "", "", "", 0⟩, none⟩
  | _ => none

/-- Unmarshalling of every element of a JSON array into sessions. -/
def decodeSessionList : List Json → Option (List Session)
  | [] => some []
  | j :: rest =>
    match decodeSession j, decodeSessionList rest with
    | some s, some ss => some (s :: ss)
    | _, _ => none

/-- Unmarshalling of the `[]Session` struct field. -/
def decodeSessionsField : Option Json → Option (Option (List Session))
  | none => some none
  | some .null => some none
  | some (.arr xs) => (decodeSessionList xs).map some
  | some _ => none

/-- Unmarshalling of the `Store` struct field under the envelope key. -/
def decodeStoreField : Option Json → Option Store
  | none => some ⟨none⟩
  | some .null => some ⟨none⟩
  | some (.obj fs) => (decodeSessionsField (lookupField fs "sessions")).map Store.mk
  | some _ => none

/-- `decoder.Decode(&store)` on an already lexed document: unknown keys are
ignored, `null` is a no-op, a type mismatch anywhere is an error. -/
def decodeChatNextWebStore : Json → Option ChatNextWebStore
  | .obj fs =>
    (decodeStoreField (lookupField fs "chat-next-web-store")).map ChatNextWebStore.mk
  | .null => some ⟨⟨none⟩⟩
  | _ => none

/-- The error taxonomy observable from `ReadJSONFromFile`:
`syntaxError` models `encoding/json`'s error for input that is not valid
JSON, `typeError` its `UnmarshalTypeError` for valid JSON whose shape
conflicts with the target struct types, and `formatError` the explicit
`JSON does not match the expected format chat-next-web-store` error raised
by the repository after a successful decode with a `nil` session slice. -/
inductive DecodeError where
  | syntaxError
  | typeError
  | formatError
deriving Repr, DecidableEq

/-- `exporter.ReadJSONFromFile`, file opening aside: the input is `none` when
the bytes are not valid JSON (the lexer lives in `encoding/json`), otherwise
the lexed tree.  After a successful decode the function fails with the
format error exactly when `store.ChatNextWebStore.Sessions == nil`. -/
def ReadJSONFromFile : Option Json → Except DecodeError ChatNextWebStore
  | none => .error .syntaxError
  | some j =>
    match decodeChatNextWebStore j with
    | none => .error .typeError
    | some store =>
      if store.ChatNextWebStore.Sessions = none then .error .formatError
      else .ok store

/-- Marshalling of an `exporter.Message`, field declaration order. -/
def encodeMessage (m : Message) : Json :=
  .obj [("id", .str m.ID), ("date", .str m.Date), ("role", .str m.Role),
    ("content", .str m.Content)]

/-- Marshalling of a `[]Message` value (`json.Marshal(session.Messages)`):
the `nil` slice marshals to `null`, otherwise a JSON array. -/
def encodeMessagesVal : Option (List Message) → Json
  | none => .null
  | some xs => .arr (xs.map encodeMessage)

/-- The errors `ConvertSessionsToCSV` can report in this embedding: the
`invalid format option` error and context cancellation.  (I/O failures of the
underlying file are outside the embedding; the CSV writer itself cannot fail
on in-memory rows.) -/
inductive ConvError where
  | invalidFormat
  | cancelled
deriving Repr, DecidableEq

/-- `exporter.getCSVHeaders`: the fixed header row per format option
(1 = inline, 2 = per line, 3 = JSON in CSV), an error otherwise. -/
def getCSVHeaders (formatOption : Int) : Option (List String) :=
  if formatOption = 1 then some ["id", "topic", "memoryPrompt", "messages"]
  else if formatOption = 2 then
    some ["session_id", "message_id", "date", "role", "content", "memoryPrompt"]
  else if formatOption = 3 then some ["id", "topic", "memoryPrompt", "messages"]
  else none

/-- `fmt.Sprintf("[%s, %s] \"%s\"", message.Role, message.Date, message.Content)`. -/
def formatMessageInline (m : Message) : String :=
  "[" ++ m.Role ++ ", " ++ m.Date ++ "] \"" ++ m.Content ++ "\""

/-- `exporter.writeInlineFormat`: one row per session; the messages cell
joins the formatted messages with a semicolon and a space (`strings.Join`
of the empty list is the empty string). -/
def writeInlineFormat (s : Session) : List (List String) :=
  [[s.ID, s.Topic, s.MemoryPrompt,
    String.intercalate "; " ((s.Messages.getD []).map formatMessageInline)]]

/-- `exporter.writePerLineFormat`: one row per message of the session
(iterating a `nil` slice writes nothing). -/
def writePerLineFormat (s : Session) : List (List String) :=
  (s.Messages.getD []).map
    (fun m => [s.ID, m.ID, m.Date, m.Role, m.Content, s.MemoryPrompt])

/-- `exporter.writeJSONFormat`: one row per session; the messages cell is the
compact `json.Marshal` serialization of the session's message slice. -/
def writeJSONFormat (s : Session) : List (List String) :=
  [[s.ID, s.Topic, s.MemoryPrompt, Json.render (encodeMessagesVal s.Messages)]]

/-- `exporter.getWriteFunction`: the per-format row writer, or an error for
an unrecognized option. -/
def getWriteFunction (formatOption : Int) : Option (Session → List (List String)) :=
  if formatOption = 1 then some writeInlineFormat
  else if formatOption = 2 then some writePerLineFormat
  else if formatOption = 3 then some writeJSONFormat
  else none

/-- The cancellation signal: `checkContextCancellation` is called once per
session, and `cancelFrom = some k` models a context whose `Done` channel is
observed closed from the `k`-th check onwards (cancellation is monotone;
`none` models a context that is never cancelled). -/
def checkContextCancellation (cancelFrom : Option Nat) (check : Nat) : Bool :=
  match cancelFrom with
  | none => false
  | some k => k ≤ check

/-- The session loop of `ConvertSessionsToCSV`: before each session the
context is checked once; on cancellation the loop stops and the rows already
written stay in the file; otherwise the session's row(s) are appended. -/
def convertLoop (cancelFrom : Option Nat) (write : Session → List (List String)) :
    List Session → Nat → List (List String) →
      Except ConvError Unit × List (List String)
  | [], _, file => (.ok (), file)
  | s :: rest, check, file =>
    if checkContextCancellation cancelFrom check then (.error .cancelled, file)
    else convertLoop cancelFrom write rest (check + 1) (file ++ write s)

/-- `exporter.ConvertSessionsToCSV` with the output file made explicit: the
second component is `none` while no output file exists and `some rows` once
`os.Create` has run, `rows` being the data rows written (and flushed) so far.
Mirrors the source order: the file is created first, then the format option
is validated, then headers are written, then the session loop runs. -/
def ConvertSessionsToCSV (cancelFrom : Option Nat) (sessions : List Session)
    (formatOption : Int) : Except ConvError Unit × Option (List (List String)) :=
  let file : List (List String) := []
  match getCSVHeaders formatOption with
  | none => (.error .invalidFormat, some file)
  | some headers =>
    let file := file ++ [headers]
    match getWriteFunction formatOption with
    | none => (.error .invalidFormat, some file)
    | some write =>
      let result := convertLoop cancelFrom write sessions 0 file
      (result.1, some result.2)

end Exporter

/-! ## Concrete documents and values used in the theorems below -/

/-- The member of the first session of a store document at a given key:
`doc["chat-next-web-store"]["sessions"][0][key]`. -/
def firstSessionField (j : Json) (key : String) : Option Json :=
  ((((j.get? "chat-next-web-store").bind
    (fun st => st.get? "sessions")).bind
    (fun ss => ss.idx? 0)).bind
    (fun s => s.get? key))

/-- A store document whose single session carries a field
(`unknownField`) that the repair schema does not model. -/
def unknownFieldStore : Json :=
  .obj [("chat-next-web-store", .obj [("sessions",
    .arr [.obj [("id", .str "s1"), ("unknownField", .bool true)]])])]

/-- The output of the repair transform on the JSON document `null`
(everything at its zero value), used as a concrete already-repaired store. -/
def nullRepairedStore : Json :=
  .obj [("chat-next-web-store", .obj [("sessions", .null),
    ("currentSessionIndex", .num 0), ("lastUpdateTime", .num 0)])]

/-- A concrete model configuration with no `systemprompt`. -/
def witnessModelConfig : RepairData.ModelConfig :=
  ⟨"gpt-4", 0, 0, 0, 0, 0, 0, "", "", "", "", false, 0, 0, false, "", none⟩

/-- A concrete mask carrying `witnessModelConfig`. -/
def witnessMask : RepairData.Mask :=
  ⟨"m1", "", "", none, false, some witnessModelConfig, "", false, 0⟩

/-- A concrete session carrying `witnessMask`. -/
def witnessSession : RepairData.Session :=
  ⟨"s1", "", "", none, ⟨0, 0, 0⟩, 0, 0, some witnessMask⟩

/-- A concrete session with no mask at all. -/
def bareSession : RepairData.Session :=
  ⟨"s2", "", "", none, ⟨0, 0, 0⟩, 0, 0, none⟩

/-- An envelope document whose `sessions` field is the empty array. -/
def emptySessionsStore : Json :=
  .obj [("chat-next-web-store", .obj [("sessions", .arr [])])]

/-- A concrete exporter session with one message. -/
def exampleSessionA : Exporter.Session :=
  ⟨"a", "topicA", "memoA", ⟨0, 0, 0⟩, 0, 0, ⟨"", "", "", "", 0⟩,
    some [⟨"m1", "d1", "user", "hello"⟩]⟩

/-- A concrete exporter session with no messages. -/
def exampleSessionB : Exporter.Session :=
  ⟨"b", "topicB", "memoB", ⟨0, 0, 0⟩, 0, 0, ⟨"", "", "", "", 0⟩, none⟩

/-! ## Helper lemmas: the repair marshaller and unmarshaller are inverse -/

namespace RepairData

theorem decode_encodeMessage (m : Message) :
    decodeMessage (encodeMessage m) = some m := rfl

theorem decode_encodeMessageList (xs : List Message) :
    decodeMessageList (xs.map encodeMessage) = some xs := by
  induction xs with
  | nil => rfl
  | cons m rest ih => simp [decodeMessageList, decode_encodeMessage, ih]

theorem decode_encodeMessagesVal (ms : Option (List Message)) :
    decodeMessagesField (some (encodeMessagesVal ms)) = some ms := by
  cases ms with
  | none => rfl
  | some xs => simp [encodeMessagesVal, decodeMessagesField, decode_encodeMessageList]

theorem decode_encodeStat (st : Stat) :
    decodeStatField (some (encodeStat st)) = some st := rfl

theorem decode_encodeSystemPrompt (sp : Option SystemPrompt) :
    decodeSystemPromptField ((sp.map (fun p => ("systemprompt", encodeSystemPrompt p))).map Prod.snd) = some sp := by
  cases sp <;> rfl

theorem decode_encodeModelConfig (c : ModelConfig) :
    decodeModelConfigField (some (encodeModelConfig c)) = some (some c) := by
  obtain ⟨model, temperature, topP, maxTokens, presencePenalty, frequencyPenalty,
    n, quality, size, style, fingerprint, sendMemory, historyMessageCount,
    compressThreshold, enableInject, template, sp⟩ := c
  cases sp <;> rfl

theorem decode_encodeModelConfigVal (mc : Option ModelConfig) :
    decodeModelConfigField (some (encodeModelConfigVal mc)) = some mc := by
  cases mc with
  | none => rfl
  | some c => simpa [encodeModelConfigVal] using decode_encodeModelConfig c

theorem decode_encodeMaskVal (om : Option Mask) :
    decodeMaskField (some (encodeMaskVal om)) = some om := by
  cases om with
  | none => rfl
  | some m =>
    simp [encodeMaskVal, decodeMaskField, lookupField,
      decode_encodeMessagesVal, decode_encodeModelConfigVal,
      decodeStringOrIntField, decodeStringField, decodeBoolField, decodeIntField]

theorem decode_encodeSession (s : Session) :
    decodeSession (encodeSession s) = some s := by
  simp [encodeSession, decodeSession, lookupField,
    decode_encodeMessagesVal, decode_encodeMaskVal, decode_encodeStat,
    decodeStringField, decodeIntField, decodeStatField, encodeStat]

theorem decode_encodeSessionList (xs : List Session) :
    decodeSessionList (xs.map encodeSession) = some xs := by
  induction xs with
  | nil => rfl
  | cons s rest ih => simp [decodeSessionList, decode_encodeSession, ih]

theorem decode_encodeSessionsVal (ss : Option (List Session)) :
    decodeSessionsField (some (encodeSessionsVal ss)) = some ss := by
  cases ss with
  | none => rfl
  | some xs => simp [encodeSessionsVal, decodeSessionsField, decode_encodeSessionList]

theorem decode_encodeChatStore (st : ChatStore) :
    decodeChatStoreField (some (encodeChatStore st)) = some st := by
  simp [encodeChatStore, decodeChatStoreField, lookupField,
    decode_encodeSessionsVal, decodeIntField]

theorem decode_encodeNewData (d : NewData) :
    decodeOldData (encodeNewData d) = some ⟨d.ChatNextWebStore⟩ := by
  simp [encodeNewData, decodeOldData, lookupField, decode_encodeChatStore]

theorem patchSession_idem (s : Session) :
    patchSession (patchSession s) = patchSession s := by
  obtain ⟨id, topic, memoryPrompt, messages, stat, lastUpdate, lastSummarizeIndex, mask⟩ := s
  cases mask with
  | none => rfl
  | some m =>
    obtain ⟨mid, avatar, name, context, sync, mc, lang, builtin, createdAt⟩ := m
    cases mc with
    | none => rfl
    | some c =>
      obtain ⟨model, temperature, topP, maxTokens, presencePenalty, frequencyPenalty,
        n, quality, size, style, fingerprint, sendMemory, historyMessageCount,
        compressThreshold, enableInject, template, sp⟩ := c
      cases sp <;> rfl

theorem patchSessions_idem (ss : Option (List Session)) :
    patchSessions (patchSessions ss) = patchSessions ss := by
  cases ss with
  | none => rfl
  | some xs =>
    simp only [patchSessions, List.map_map]
    induction xs with
    | nil => rfl
    | cons s rest ih =>
      simp only [List.map, Function.comp, patchSession_idem]
      simpa [Function.comp] using ih

theorem patchChatStore_idem (st : ChatStore) :
    patchChatStore (patchChatStore st) = patchChatStore st := by
  simp [patchChatStore, patchSessions_idem]

end RepairData

/-! ## Helper lemmas: the exporter's message codec and the session loop -/

namespace Exporter

theorem decodeEnc_message (m : Message) :
    decodeMessage (encodeMessage m) = some m := rfl

theorem decodeEnc_messageList (xs : List Message) :
    decodeMessageList (xs.map encodeMessage) = some xs := by
  induction xs with
  | nil => rfl
  | cons m rest ih => simp [decodeMessageList, decodeEnc_message, ih]

theorem decodeEnc_messagesVal (ms : Option (List Message)) :
    decodeMessagesField (some (encodeMessagesVal ms)) = some ms := by
  cases ms with
  | none => rfl
  | some xs => simp [encodeMessagesVal, decodeMessagesField, decodeEnc_messageList]

theorem convertLoop_no_cancel (write : Session → List (List String)) :
    ∀ (xs : List Session) (check : Nat) (file : List (List String)),
      convertLoop none write xs check file = (.ok (), file ++ xs.flatMap write) := by
  intro xs
  induction xs with
  | nil => intro check file; simp [convertLoop]
  | cons s rest ih =>
    intro check file
    simp [convertLoop, checkContextCancellation, ih, List.append_assoc]

theorem convertLoop_cancelled (write : Session → List (List String)) :
    ∀ (xs : List Session) (k check : Nat) (file : List (List String)),
      k < xs.length →
      convertLoop (some (check + k)) write xs check file
        = (.error .cancelled, file ++ (xs.take k).flatMap write) := by
  intro xs
  induction xs with
  | nil => intro k check file h; simp at h
  | cons s rest ih =>
    intro k check file h
    cases k with
    | zero => simp [convertLoop, checkContextCancellation]
    | succ k =>
      have hlt : ¬ (check + (k + 1) ≤ check) := by omega
      have hstep : check + (k + 1) = (check + 1) + k := by omega
      simp only [convertLoop, checkContextCancellation, hlt, if_false, decide_eq_true_eq]
      rw [hstep, ih k (check + 1) (file ++ write s) (by simpa using h)]
      simp [List.append_assoc]

theorem flatMap_singleton_rows (f : Session → List String) (xs : List Session) :
    xs.flatMap (fun s => [f s]) = xs.map f := by
  induction xs with
  | nil => rfl
  | cons s rest ih => simp [ih]

end Exporter

/-! ## The claims -/

namespace RepairData

/-- C1: the claim reads: for every input document accepted by the repair
transform, every field present in the input — including fields the repair
schema does not explicitly model — is present and unchanged in the repaired
output, except `mask.modelConfig.systemPrompt`, which is set only if
previously absent.  The code violates this: `RepairSessionData` round-trips
through the strict `OldData` schema, so a session field the schema does not
model (`unknownField` below) is accepted without error and silently dropped
from the output, while the modelled `id` field of the same session survives. -/
theorem c1_repair_drops_unmodeled_field :
    (RepairSessionData unknownFieldStore).isSome = true ∧
    firstSessionField unknownFieldStore "unknownField" = some (.bool true) ∧
    (RepairSessionData unknownFieldStore).bind
      (fun out => firstSessionField out "unknownField") = none ∧
    (RepairSessionData unknownFieldStore).bind
      (fun out => firstSessionField out "id") = some (.str "s1") :=
  ⟨rfl, rfl, rfl, rfl⟩

end RepairData

namespace RepairData

/-- C3: the repair transform is idempotent.  Whenever `RepairSessionData`
maps an input document to an output document, running it again on that
output reproduces it exactly; since `Json.marshalIndent` is a function of
the tree, the re-serialized bytes (same two-space indentation) coincide byte
for byte.  The patch inserts `systemprompt` only where it is absent, and the
re-decoded output is exactly the already patched data. -/
theorem c3_repair_idempotent (j out : Json)
    (h : RepairSessionData j = some out) :
    RepairSessionData out = some out ∧
    (RepairSessionData out).map Json.marshalIndent = some (Json.marshalIndent out) := by
  unfold RepairSessionData at h
  cases hd : decodeOldData j with
  | none => rw [hd] at h; simp at h
  | some old =>
    rw [hd] at h
    simp only [Option.some.injEq] at h
    subst h
    have hre : RepairSessionData (encodeNewData ⟨patchChatStore old.ChatNextWebStore⟩)
        = some (encodeNewData ⟨patchChatStore old.ChatNextWebStore⟩) := by
      unfold RepairSessionData
      rw [decode_encodeNewData]
      simp [patchChatStore_idem]
    exact ⟨hre, by rw [hre]; rfl⟩

/-- C3 witness: the concrete document `null` repairs to `nullRepairedStore`,
and repairing that output is the identity on it. -/
theorem c3_repair_idempotent_witness :
    RepairSessionData Json.null = some nullRepairedStore ∧
    RepairSessionData nullRepairedStore = some nullRepairedStore :=
  ⟨rfl, (c3_repair_idempotent Json.null nullRepairedStore rfl).1⟩

set_option maxRecDepth 8192 in
/-- C4: for every session whose mask and model configuration are present and
whose `systemPrompt` is absent, the patch sets `systemPrompt` to the fixed
constant template (whose placeholder tokens for cutoff, model and time are
left verbatim, as the decomposition of `defaultSystemPrompt` into literal
pieces shows); a session whose mask is absent, or whose mask carries no
model configuration, is left untouched. -/
theorem c4_systemprompt_patch :
    (∀ (s : Session) (m : Mask) (c : ModelConfig),
      s.Mask = some m → m.ModelConfig = some c → c.SystemPrompt = none →
      ((patchSession s).Mask.bind (fun mk => mk.ModelConfig)).bind
        (fun cfg => cfg.SystemPrompt) = some ⟨defaultSystemPrompt⟩) ∧
    defaultSystemPrompt =
      "\nYou are ChatGPT, a large language model trained by OpenAI.\nKnowledge cutoff: "
        ++ "\x7b\x7bcutoff\x7d\x7d" ++ "\nCurrent model: " ++ "\x7b\x7bmodel\x7d\x7d"
        ++ "\nCurrent time: " ++ "\x7b\x7btime\x7d\x7d"
        ++ "\nLatex inline: $x^2$ \nLatex block: $$e=mc^2$$\n" ∧
    (∀ s : Session, s.Mask = none → patchSession s = s) ∧
    (∀ (s : Session) (m : Mask), s.Mask = some m → m.ModelConfig = none →
      patchSession s = s) := by
  refine ⟨?_, by decide, ?_, ?_⟩
  · intro s m c h1 h2 h3
    simp [patchSession, h1, h2, h3]
  · intro s h1
    simp [patchSession, h1]
  · intro s m h1 h2
    simp [patchSession, h1, h2]

/-- C4 witness: the patch applied to a concrete session whose mask and model
configuration are present but whose system prompt is absent yields the
default template, and a concrete session without a mask is unchanged. -/
theorem c4_systemprompt_patch_witness :
    ((patchSession witnessSession).Mask.bind (fun mk => mk.ModelConfig)).bind
      (fun cfg => cfg.SystemPrompt) = some ⟨defaultSystemPrompt⟩ ∧
    patchSession bareSession = bareSession :=
  ⟨c4_systemprompt_patch.1 witnessSession witnessMask witnessModelConfig rfl rfl rfl,
    c4_systemprompt_patch.2.2.1 bareSession rfl⟩

end RepairData

namespace Exporter

/-- C2, counterexample: the claim reads that an unrecognized format selector
(0 or 99) fails before any output file is created, leaving no partial or
empty output file.  The code calls `os.Create` before validating the
selector: with selector 0 (or 99) the conversion does fail with the
invalid-format error, but an output file exists afterwards (created, and
empty — not even headers were written). -/
theorem c2_invalid_format_no_file_cex :
    ConvertSessionsToCSV none [] 0 = (.error .invalidFormat, some []) ∧
    (ConvertSessionsToCSV none [] 0).2.isSome = true ∧
    ConvertSessionsToCSV none [] 99 = (.error .invalidFormat, some []) :=
  ⟨rfl, rfl, rfl⟩

/-- C2, amended: for every session list and every format selector outside
the known set, the conversion fails with the invalid-format error before
writing any headers or rows — but after the output file has been created, so
an empty output file exists afterwards. -/
theorem c2_invalid_format_amended (cancelFrom : Option Nat)
    (sessions : List Session) (fmt : Int)
    (h1 : fmt ≠ 1) (h2 : fmt ≠ 2) (h3 : fmt ≠ 3) :
    ConvertSessionsToCSV cancelFrom sessions fmt = (.error .invalidFormat, some []) := by
  simp [ConvertSessionsToCSV, getCSVHeaders, h1, h2, h3]

/-- C2 witness: the amended statement at selector 99 on a concrete session
list. -/
theorem c2_invalid_format_amended_witness :
    ConvertSessionsToCSV none [exampleSessionA] 99 = (.error .invalidFormat, some []) :=
  c2_invalid_format_amended none [exampleSessionA] 99 (by decide) (by decide) (by decide)

/-- C5, counterexample: the claim reads that every syntactically valid JSON
byte stream lacking the `chat-next-web-store` key fails with the format
error.  The JSON document `5` is valid JSON and has no such key, yet the
decoder rejects it with an unmarshalling type error — an `encoding/json`
error distinct from the repository's format error (and from the syntax
error for malformed bytes). -/
theorem c5_nonobject_type_error_cex :
    ReadJSONFromFile (some (.num 5)) = .error .typeError ∧
    DecodeError.typeError ≠ DecodeError.formatError ∧
    DecodeError.typeError ≠ DecodeError.syntaxError :=
  ⟨rfl, by decide, by decide⟩

/-- C5, amended: when the input is valid JSON whose shape is compatible with
the envelope struct, the missing-key and absent/null-`sessions` cases fail
with the format error: (1) a top-level object without the
`chat-next-web-store` key; (2) an envelope object whose `sessions` field is
absent or null; (3) a null envelope value.  Moreover (4) decode succeeds
only with a present, non-null session slice, (5) malformed bytes give the
syntax error, and (6) the format error is distinguishable from it.  (Valid
JSON whose shape conflicts with the struct types — a non-object top level or
envelope value, or an ill-typed `sessions` — instead fails with the decoder's
type error, as the counterexample shows.) -/
theorem c5_format_error_amended :
    (∀ fs, lookupField fs "chat-next-web-store" = none →
      ReadJSONFromFile (some (.obj fs)) = .error .formatError) ∧
    (∀ fs inner, lookupField fs "chat-next-web-store" = some (.obj inner) →
      (lookupField inner "sessions" = none ∨ lookupField inner "sessions" = some .null) →
      ReadJSONFromFile (some (.obj fs)) = .error .formatError) ∧
    (∀ fs, lookupField fs "chat-next-web-store" = some .null →
      ReadJSONFromFile (some (.obj fs)) = .error .formatError) ∧
    (∀ (j : Json) (st : ChatNextWebStore), ReadJSONFromFile (some j) = .ok st →
      st.ChatNextWebStore.Sessions ≠ none) ∧
    ReadJSONFromFile none = .error .syntaxError ∧
    DecodeError.formatError ≠ DecodeError.syntaxError := by
  refine ⟨?_, ?_, ?_, ?_, rfl, by decide⟩
  · intro fs h
    simp [ReadJSONFromFile, decodeChatNextWebStore, h, decodeStoreField]
  · intro fs inner h hsess
    rcases hsess with hs | hs <;>
      simp [ReadJSONFromFile, decodeChatNextWebStore, h, decodeStoreField, hs,
        decodeSessionsField]
  · intro fs h
    simp [ReadJSONFromFile, decodeChatNextWebStore, h, decodeStoreField]
  · intro j st h
    cases hd : decodeChatNextWebStore j with
    | none => simp [ReadJSONFromFile, hd] at h
    | some store =>
      by_cases hs : store.ChatNextWebStore.Sessions = none
      · simp [ReadJSONFromFile, hd, hs] at h
      · simp only [ReadJSONFromFile, hd, if_neg hs, Except.ok.injEq] at h
        subst h
        exact hs

/-- C5 witness: the amended statement applied to concrete documents — the
empty object and an envelope whose `sessions` is null both give the format
error. -/
theorem c5_format_error_amended_witness :
    ReadJSONFromFile (some (.obj [])) = .error .formatError ∧
    ReadJSONFromFile
      (some (.obj [("chat-next-web-store", .obj [("sessions", .null)])]))
        = .error .formatError :=
  ⟨c5_format_error_amended.1 [] rfl,
    c5_format_error_amended.2.1 [("chat-next-web-store", .obj [("sessions", .null)])]
      [("sessions", .null)] rfl (Or.inr rfl)⟩

end Exporter

namespace Exporter

theorem length_flatMap_rows (f : Session → List (List String)) :
    ∀ xs : List Session, (xs.flatMap f).length = (xs.map (fun s => (f s).length)).sum := by
  intro xs
  induction xs with
  | nil => rfl
  | cons s rest ih => simp [ih]

/-- C6: in the inline projection every session list converts successfully to
the inline header followed by exactly one data row per session, whose
messages cell formats each message as `[role, date] "content"` and joins
them in message order with a semicolon and a space; the row count is the
session count plus the header, and a session with zero messages (a `nil` or
an empty slice) yields an empty messages cell rather than an error. -/
theorem c6_inline_projection (sessions : List Session) :
    ConvertSessionsToCSV none sessions 1
      = (.ok (), some (["id", "topic", "memoryPrompt", "messages"] ::
          sessions.map (fun s => [s.ID, s.Topic, s.MemoryPrompt,
            String.intercalate "; " ((s.Messages.getD []).map formatMessageInline)]))) ∧
    ((ConvertSessionsToCSV none sessions 1).2.getD []).length = sessions.length + 1 ∧
    (∀ s : Session, writeInlineFormat { s with Messages := none }
        = [[s.ID, s.Topic, s.MemoryPrompt, ""]]) ∧
    (∀ s : Session, writeInlineFormat { s with Messages := some [] }
        = [[s.ID, s.Topic, s.MemoryPrompt, ""]]) := by
  have hmain : ConvertSessionsToCSV none sessions 1
      = (.ok (), some (["id", "topic", "memoryPrompt", "messages"] ::
          sessions.map (fun s => [s.ID, s.Topic, s.MemoryPrompt,
            String.intercalate "; " ((s.Messages.getD []).map formatMessageInline)]))) := by
    simp only [ConvertSessionsToCSV, getCSVHeaders, getWriteFunction,
      convertLoop_no_cancel]
    norm_num
    rw [show (writeInlineFormat : Session → List (List String))
        = (fun s => [[s.ID, s.Topic, s.MemoryPrompt,
            String.intercalate "; " ((s.Messages.getD []).map formatMessageInline)]])
      from rfl]
    rw [flatMap_singleton_rows]
  refine ⟨hmain, ?_, fun s => rfl, fun s => rfl⟩
  rw [hmain]
  simp

/-- C7: in the per-line projection every session list converts successfully
to the per-line header followed by one data row per message, in session
order and then message order, each row repeating its session's id and memory
prompt; the number of data rows is the total message count over all sessions
(zero-message sessions contribute none). -/
theorem c7_perline_projection (sessions : List Session) :
    ConvertSessionsToCSV none sessions 2
      = (.ok (), some
          (["session_id", "message_id", "date", "role", "content", "memoryPrompt"] ::
          sessions.flatMap (fun s => (s.Messages.getD []).map
            (fun m => [s.ID, m.ID, m.Date, m.Role, m.Content, s.MemoryPrompt])))) ∧
    ((ConvertSessionsToCSV none sessions 2).2.getD []).length
      = 1 + (sessions.map (fun s => (s.Messages.getD []).length)).sum := by
  have hmain : ConvertSessionsToCSV none sessions 2
      = (.ok (), some
          (["session_id", "message_id", "date", "role", "content", "memoryPrompt"] ::
          sessions.flatMap (fun s => (s.Messages.getD []).map
            (fun m => [s.ID, m.ID, m.Date, m.Role, m.Content, s.MemoryPrompt])))) := by
    simp only [ConvertSessionsToCSV, getCSVHeaders, getWriteFunction,
      convertLoop_no_cancel]
    norm_num
    rfl
  refine ⟨hmain, ?_⟩
  rw [hmain]
  simp only [Option.getD_some, List.length_cons]
  rw [show (fun s : Session => (s.Messages.getD []).map
      (fun m => [s.ID, m.ID, m.Date, m.Role, m.Content, s.MemoryPrompt]))
    = (writePerLineFormat : Session → List (List String)) from rfl]
  rw [length_flatMap_rows writePerLineFormat sessions]
  have : (fun s : Session => (writePerLineFormat s).length)
      = (fun s : Session => (s.Messages.getD []).length) := by
    funext s; simp [writePerLineFormat]
  rw [this]
  omega

end Exporter

namespace Exporter

/-- C8: in the JSON-embed projection every session list converts
successfully to the header followed by one data row per session whose
messages cell is the compact (`json.Marshal`) serialization of the session's
message slice; unmarshalling that serialization recovers a message list
equal to the original (same ids, dates, roles, contents, in order), and on a
concrete message the cell is the expected compact (non-pretty-printed)
array. -/
theorem c8_jsonembed_roundtrip (sessions : List Session) :
    ConvertSessionsToCSV none sessions 3
      = (.ok (), some (["id", "topic", "memoryPrompt", "messages"] ::
          sessions.map (fun s => [s.ID, s.Topic, s.MemoryPrompt,
            Json.render (encodeMessagesVal s.Messages)]))) ∧
    (∀ ms : Option (List Message),
      decodeMessagesField (some (encodeMessagesVal ms)) = some ms) ∧
    Json.render (encodeMessagesVal (some [⟨"i", "d", "r", "c"⟩]))
      = "[\x7b\"id\":\"i\",\"date\":\"d\",\"role\":\"r\",\"content\":\"c\"\x7d]" := by
  refine ⟨?_, decodeEnc_messagesVal, by decide⟩
  simp only [ConvertSessionsToCSV, getCSVHeaders, getWriteFunction,
    convertLoop_no_cancel]
  norm_num
  rw [show (writeJSONFormat : Session → List (List String))
      = (fun s => [[s.ID, s.Topic, s.MemoryPrompt,
          Json.render (encodeMessagesVal s.Messages)]]) from rfl]
  rw [flatMap_singleton_rows]

/-- C9: the cancellation signal is checked exactly once per session, between
sessions and never mid-session.  For every valid format, if the context is
first observed cancelled at the `k`-th check (with `k` less than the number
of sessions), the conversion stops before writing the `k`-th session's
row(s), reports the cancelled condition, and the file keeps the header and
exactly the rows of the first `k` sessions, each written in full. -/
theorem c9_cancellation_per_session (sessions : List Session) (fmt : Int)
    (headers : List String) (write : Session → List (List String)) (k : Nat)
    (hH : getCSVHeaders fmt = some headers)
    (hW : getWriteFunction fmt = some write)
    (hk : k < sessions.length) :
    ConvertSessionsToCSV (some k) sessions fmt
      = (.error .cancelled, some (headers :: (sessions.take k).flatMap write)) := by
  have h := convertLoop_cancelled write sessions k 0 [headers] hk
  rw [Nat.zero_add] at h
  simp only [ConvertSessionsToCSV, hH, hW, List.nil_append, h]
  rfl

set_option maxRecDepth 4096 in
/-- C9 witness: converting two concrete sessions inline with a context
cancelled at the second check reports cancellation and keeps exactly the
header and the first session's row. -/
theorem c9_cancellation_per_session_witness :
    ConvertSessionsToCSV (some 1) [exampleSessionA, exampleSessionB] 1
      = (.error .cancelled, some [["id", "topic", "memoryPrompt", "messages"],
          ["a", "topicA", "memoA", "[user, d1] \"hello\""]]) := by
  rw [c9_cancellation_per_session [exampleSessionA, exampleSessionB] 1
    ["id", "topic", "memoryPrompt", "messages"] writeInlineFormat 1 rfl rfl
    (by decide)]
  rfl

/-- C10: an envelope whose `sessions` field is the empty array is accepted
by the decoder (empty is distinct from absent or null and is not a format
error), yielding a store with zero sessions, and projecting an empty session
list under any cancellation signal produces, for each of the three CSV
formats, an output containing only that format's header row and no data
rows. -/
theorem c10_empty_sessions_accepted :
    ReadJSONFromFile (some emptySessionsStore) = .ok ⟨⟨some []⟩⟩ ∧
    (∀ cancelFrom : Option Nat,
      ConvertSessionsToCSV cancelFrom [] 1
          = (.ok (), some [["id", "topic", "memoryPrompt", "messages"]]) ∧
      ConvertSessionsToCSV cancelFrom [] 2
          = (.ok (), some [["session_id", "message_id", "date", "role",
              "content", "memoryPrompt"]]) ∧
      ConvertSessionsToCSV cancelFrom [] 3
          = (.ok (), some [["id", "topic", "memoryPrompt", "messages"]])) :=
  ⟨rfl, fun _ => ⟨rfl, rfl, rfl⟩⟩

end Exporter
